import Mathlib

/-!
# Verification of the docnote_extract resolution-hook subsystem

Shallow embedding of `src_py/docnote_extract/_extraction.py` (the
resolution-hook subsystem: stub policy, import finder/loader, tracking
registry, phase coordinator) together with proofs about the properties
its specification states.

Modelling conventions:
* Python `dict`s are modelled as association lists (`List (κ × ν)`) with
  first-match lookup and replace-or-append update, which matches `dict`
  insertion-order semantics for every operation the embedded code performs.
* Python `frozenset`s are modelled as deduplicated `List String`; only
  membership is ever consulted.
* Python object identity (`id(obj)`) is modelled by a `Nat` identity carried
  by every modelled runtime object (`PyObj`).
* Ambient interpreter state (`sys.stdlib_module_names`, `sys.meta_path`,
  `sys.modules`, the `ContextVar`s) is passed explicitly.
* `getattr` failures and `raise` are modelled with `Except`.
-/

namespace DocnoteExtract

/-! ## Python dict model: association lists -/

/-- First-match lookup in an association list, i.e. `d.get(k)` /
`d[k]` on a Python dict. -/
def dictLookup {κ ν : Type} [DecidableEq κ] : List (κ × ν) → κ → Option ν
  | [], _ => none
  | (k, v) :: rest, key => if k = key then some v else dictLookup rest key

/-- Membership test, i.e. `k in d` on a Python dict. -/
def dictContains {κ ν : Type} [DecidableEq κ] (d : List (κ × ν)) (key : κ) : Bool :=
  (dictLookup d key).isSome

/-- Update, i.e. `d[k] = v` on a Python dict: overwrite in place when the
key exists (keeping its position, as dicts do), append otherwise. -/
def dictSet {κ ν : Type} [DecidableEq κ] : List (κ × ν) → κ → ν → List (κ × ν)
  | [], key, v => [(key, v)]
  | (k, w) :: rest, key, v =>
      if k = key then (key, v) :: rest else (k, w) :: dictSet rest key v

/-- Deletion, i.e. `del d[k]` on a Python dict. -/
def dictRemove {κ ν : Type} [DecidableEq κ] (d : List (κ × ν)) (key : κ) :
    List (κ × ν) :=
  d.filter (fun kv => kv.1 ≠ key)

/-! ## Stub policy: `StubsConfig` (`_extraction.py`, lines 1256-1330) -/

/-- `NOHOOK_PACKAGES` (lines 54-63): packages completely untouched by
the import hook. -/
def NOHOOK_PACKAGES : List String :=
  ["docnote", "docnote_extract", "py", "pytest", "_pytest", "_virtualenv",
   "typing_extensions"]

/-- Python `fullname.partition(".")[0]` (equivalently the first element of
`fullname.split(".")`): the top-level package of a dotted module name,
i.e. everything before the first dot. -/
def toplevelPackage (fullname : String) : String :=
  String.mk (fullname.toList.takeWhile (fun c => c ≠ '.'))

/-- Python `frozenset(collection)` over strings: deduplicated contents; only
membership is consulted downstream. -/
def pyFrozenset (collection : List String) : List String :=
  collection.dedup

/-- `StubsConfig` (lines 1256-1266). The frozensets are modelled as
deduplicated lists. -/
structure StubsConfig where
  enable_stubs : Bool
  global_allowlist : Option (List String)
  firstparty_blocklist : List String
  thirdparty_blocklist : List String
deriving Repr, DecidableEq

/-- The `enabled_stubs` argument of `StubsConfig.from_gather_kwargs`
(line 1271): Python type `bool | Collection[str]`; the code branches on
`enabled_stubs is True` / `is False`, so any non-boolean collection takes
the final branch. -/
inductive EnabledStubsArg
  | bool (value : Bool)
  | names (collection : List String)
deriving Repr, DecidableEq

/-- `StubsConfig.from_gather_kwargs` (lines 1268-1300). -/
def StubsConfig.from_gather_kwargs
    (enabled_stubs : EnabledStubsArg)
    (nostub_firstparty_modules : Option (List String))
    (nostub_packages : Option (List String)) : StubsConfig :=
  let firstparty_blocklist := pyFrozenset (nostub_firstparty_modules.getD [])
  let thirdparty_blocklist := pyFrozenset (nostub_packages.getD [])
  match enabled_stubs with
  | .bool true =>
      { enable_stubs := true
        global_allowlist := none
        firstparty_blocklist := firstparty_blocklist
        thirdparty_blocklist := thirdparty_blocklist }
  | .bool false =>
      { enable_stubs := false
        global_allowlist := none
        firstparty_blocklist := firstparty_blocklist
        thirdparty_blocklist := thirdparty_blocklist }
  | .names collection =>
      { enable_stubs := true
        global_allowlist := some (pyFrozenset collection)
        firstparty_blocklist := firstparty_blocklist
        thirdparty_blocklist := thirdparty_blocklist }

/-- `StubsConfig.use_stub_strategy` (lines 1302-1329). Returns `some true`
when the module should be stubbed, `some false` when it should be tracked,
and `none` when it should be completely bypassed. `sys_stdlib` models the
ambient `sys.stdlib_module_names`. -/
def StubsConfig.use_stub_strategy (self : StubsConfig) (sys_stdlib : List String)
    (module_fullname : String) : Option Bool :=
  let package_name := toplevelPackage module_fullname
  if sys_stdlib.contains package_name || NOHOOK_PACKAGES.contains package_name then
    none
  else if !self.enable_stubs then
    some false
  else
    match self.global_allowlist with
    | none =>
        if self.firstparty_blocklist.contains module_fullname
            || self.thirdparty_blocklist.contains package_name then
          some false
        else
          some true
    | some allowlist => some (allowlist.contains module_fullname)

/-! ## Provenance tracking registry and the two tracking-wrapper variants
(`_extraction.py`, lines 42-43, 71-85, 955-1008, 1137-1175) -/

/-- A modelled Python runtime object; `id` models CPython `id(obj)`, the
object identity the tracking registry is keyed by. -/
structure PyObj where
  id : Nat
deriving Repr, DecidableEq

/-- `type TrackingImportSource = tuple[str, str]` (line 42): the
`(module_name, attribute_name)` origin of a tracked object. -/
abbrev TrackingImportSource := String × String

/-- `type TrackingRegistry = dict[int, TrackingImportSource | None]`
(line 43): object identity mapped to a definite origin or the `None`
tombstone, modelled as an association list. -/
abbrev TrackingRegistry := List (Nat × Option TrackingImportSource)

/-- `_CLONABLE_IMPORT_ATTRS` (lines 71-75). -/
def _CLONABLE_IMPORT_ATTRS : List String :=
  ["__package__", "__path__", "__file__"]

/-- `_UNTRACKED_IMPORT_ATTRS` (lines 77-85). -/
def _UNTRACKED_IMPORT_ATTRS : List String :=
  _CLONABLE_IMPORT_ATTRS ++
    ["__spec__", "__name__", "__dict__", "__loader__", "__class__",
     "__getattr__"]

/-- The registry-update conflict rule executed verbatim by both tracking
variants: `_wrapped_tracking_getattr` (lines 995-1006) and
`_FirstpartyTrackingModule.__getattribute__` (lines 1161-1173).
A missing entry is recorded with `tracked_src`; the `None` tombstone
(modelled `none`) is terminal; a repeat from the same origin is a no-op; a
different origin overwrites the entry with the tombstone. -/
def recordImport (registry : TrackingRegistry) (obj_id : Nat)
    (tracked_src : TrackingImportSource) : TrackingRegistry :=
  match dictLookup registry obj_id with
  | none => dictSet registry obj_id (some tracked_src)
  | some none => registry
  | some (some existing_record) =>
      if existing_record = tracked_src then registry
      else dictSet registry obj_id none

/-- An attribute namespace of a module object: attribute name mapped to the
runtime object it holds. -/
abbrev ModuleNamespace := List (String × PyObj)

/-- `_wrapped_tracking_getattr` (lines 955-1008), the delegating tracking
wrapper installed as a module-level `__getattr__`. Names in
`_CLONABLE_IMPORT_ATTRS` raise `AttributeError` immediately; otherwise the
object is fetched from the real source module (raising when missing, as
`getattr` does), the active registry — when one is active — is updated via
the conflict rule, and the source object itself is returned. -/
def _wrapped_tracking_getattr (name : String) (module_name : String)
    (src_module : ModuleNamespace) (registry : Option TrackingRegistry) :
    Except String PyObj × Option TrackingRegistry :=
  if _CLONABLE_IMPORT_ATTRS.contains name then
    (.error "AttributeError", registry)
  else
    match dictLookup src_module name with
    | none => (.error "AttributeError", registry)
    | some src_object =>
        match registry with
        | none => (.ok src_object, none)
        | some reg =>
            (.ok src_object,
             some (recordImport reg src_object.id (module_name, name)))

/-- `_FirstpartyTrackingModule.__getattribute__` (lines 1137-1175), the
re-initializing tracking wrapper variant. Names in
`_UNTRACKED_IMPORT_ATTRS` are resolved directly without touching the
registry; any other access resolves against the module's own namespace
(`super().__getattribute__`), records provenance via the conflict rule when
a registry is active, and returns the resolved object. `module_name` stands
for `self.__name__`, which the code reads through the untracked fast
path. -/
def _FirstpartyTrackingModule_getattribute (name : String)
    (module_name : String) (module_dict : ModuleNamespace)
    (registry : Option TrackingRegistry) :
    Except String PyObj × Option TrackingRegistry :=
  if _UNTRACKED_IMPORT_ATTRS.contains name then
    (match dictLookup module_dict name with
     | none => Except.error "AttributeError"
     | some v => Except.ok v,
     registry)
  else
    match dictLookup module_dict name with
    | none => (.error "AttributeError", registry)
    | some src_object =>
        match registry with
        | none => (.ok src_object, none)
        | some reg =>
            (.ok src_object,
             some (recordImport reg src_object.id (module_name, name)))

/-- One attribute access through one of the two tracking-wrapper variants:
which variant, the attribute name, the wrapper's module name, and the
namespace the access resolves against. -/
structure TrackedAccess where
  firstparty : Bool
  name : String
  module_name : String
  src : ModuleNamespace
deriving Repr

/-- The registry after performing one access with an active registry. -/
def applyAccess (registry : TrackingRegistry) (access : TrackedAccess) :
    TrackingRegistry :=
  let result :=
    if access.firstparty then
      _FirstpartyTrackingModule_getattribute access.name access.module_name
        access.src (some registry)
    else
      _wrapped_tracking_getattr access.name access.module_name
        access.src (some registry)
  result.2.getD registry

/-- The registry after a sequence of recorded accesses. -/
def applyAccesses (registry : TrackingRegistry)
    (accesses : List TrackedAccess) : TrackingRegistry :=
  accesses.foldl applyAccess registry

/-! ## Second-pass re-execution and namespace merge
(`_recover_typecheck_blocks_via_second_inspectee_reexec`, lines 355-409) -/

/-- One step of the merge-back loop (lines 407-409): add the pair unless
its key is already present in the destination namespace. -/
def mergeMissingKeysStep (dest : ModuleNamespace) (kv : String × PyObj) :
    ModuleNamespace :=
  if dictContains dest kv.1 then dest else dictSet dest kv.1 kv.2

/-- The merge-back loop (lines 407-409): `for key, value in
expanded_namespace.items(): if key not in dest_namespace:
dest_namespace[key] = value`. -/
def mergeMissingKeys (dest_namespace : ModuleNamespace)
    (expanded_namespace : ModuleNamespace) : ModuleNamespace :=
  expanded_namespace.foldl mergeMissingKeysStep dest_namespace

/-- `_recover_typecheck_blocks_via_second_inspectee_reexec` (lines
355-409): the scratch namespace `expanded_namespace` starts as a copy of
the first pass's results (`{**dest_namespace}`, line 394), the module
source is re-executed into it with the static-analysis flag forced on
(modelled by the arbitrary function `execSecondPass` from the seeded
namespace to the post-execution namespace), and then only keys absent from
`dest_namespace` are merged back. -/
def _recover_typecheck_blocks_via_second_inspectee_reexec
    (execSecondPass : ModuleNamespace → ModuleNamespace)
    (dest_namespace : ModuleNamespace) : ModuleNamespace :=
  let expanded_namespace := execSecondPass dest_namespace
  mergeMissingKeys dest_namespace expanded_namespace

/-! ## Hook installation and tracking-registry activation
(`install`, lines 257-266; `_activatate_tracking_registry`, lines 913-930) -/

/-- An entry of `sys.meta_path`: either an `_ExtractionFinderLoader`
instance (the resolution hook) or any other host finder. -/
inductive MetaPathEntry
  | extractionLoader (loader_id : Nat)
  | hostFinder (finder_id : Nat)
deriving Repr, DecidableEq

/-- `isinstance(finder, _ExtractionFinderLoader)`. -/
def MetaPathEntry.isExtractionLoader : MetaPathEntry → Bool
  | .extractionLoader _ => true
  | .hostFinder _ => false

/-- `_ExtractionFinderLoader.install` (lines 257-266): raise a
`RuntimeError` when any `_ExtractionFinderLoader` is already on
`sys.meta_path`, else `sys.meta_path.insert(0, self)`. The result pairs the
outcome with the resulting `sys.meta_path`; on the raising path the list is
returned unchanged because the raise precedes the insertion. -/
def install (self_id : Nat) (meta_path : List MetaPathEntry) :
    Except String Unit × List MetaPathEntry :=
  if meta_path.any MetaPathEntry.isExtractionLoader then
    (.error "Cannot have multiple active extraction loaders!", meta_path)
  else
    (.ok (), MetaPathEntry.extractionLoader self_id :: meta_path)

/-- `_activatate_tracking_registry` (lines 913-930), entry behaviour of the
context manager: raise a `RuntimeError` when `_ACTIVE_TRACKING_REGISTRY`
already holds a registry, else set the fresh registry. On the raising path
the active registry is returned unchanged because the raise precedes the
`set`. -/
def _activatate_tracking_registry (registry : TrackingRegistry)
    (active : Option TrackingRegistry) :
    Except String Unit × Option TrackingRegistry :=
  if active.isSome then
    (.error "Cannot have multiple activated tracking registries!", active)
  else
    (.ok (), some registry)

/-! ## Extraction phases (`_ExtractionPhase`, lines 105-113; phase flow of
`discover_and_extract`, lines 144-185) -/

/-- `_ExtractionPhase` (lines 105-113). -/
inductive _ExtractionPhase
  | HOOKED
  | EXPLORATION
  | PREPARATION
  | EXTRACTION
deriving Repr, DecidableEq

/-- The position of a phase in the documented four-phase order
`HOOKED → EXPLORATION → PREPARATION → EXTRACTION`. -/
def phaseIndex : _ExtractionPhase → Nat
  | .HOOKED => 0
  | .EXPLORATION => 1
  | .PREPARATION => 2
  | .EXTRACTION => 3

/-- The `_EXTRACTION_PHASE` `ContextVar`: its current value (at most one
phase at a time) plus, for specification purposes, the trace of all values
ever assigned with `set`. -/
structure PhaseVar where
  value : Option _ExtractionPhase
  setTrace : List _ExtractionPhase
deriving Repr, DecidableEq

/-- `_EXTRACTION_PHASE.set(p)`. -/
def PhaseVar.set (v : PhaseVar) (p : _ExtractionPhase) : PhaseVar :=
  { value := some p, setTrace := v.setTrace ++ [p] }

/-- `_EXTRACTION_PHASE.reset(ctx_token)`: restore the value the variable
had when the token was created. -/
def PhaseVar.resetTo (v : PhaseVar) (prior : Option _ExtractionPhase) :
    PhaseVar :=
  { v with value := prior }

/-- The `_EXTRACTION_PHASE` operations performed by `discover_and_extract`
(lines 144-185) in source order: `set(HOOKED)` (line 145),
`set(EXPLORATION)` (line 158), `set(EXTRACTION)` (line 168), and finally
`reset(ctx_token)` (line 184). No other statement of the function assigns
the phase variable; in particular `PREPARATION` is never assigned. -/
def discover_and_extract_phaseVar (v : PhaseVar) : PhaseVar :=
  let prior := v.value
  ((((v.set .HOOKED).set .EXPLORATION).set .EXTRACTION).resetTo prior)

/-- The phase values assigned during one `discover_and_extract` run,
starting from an unset variable. -/
def discover_and_extract_phaseTrace : List _ExtractionPhase :=
  (discover_and_extract_phaseVar { value := none, setTrace := [] }).setTrace

/-! ## Resolution decision: `find_spec` and `_get_delegated_spec`
(lines 553-662) -/

/-- `_StubStrategy` (lines 90-97). -/
inductive _StubStrategy
  | STUB
  | INSPECT
  | TRACK
deriving Repr, DecidableEq

/-- `_ExtractionLoaderState` (lines 933-943) and its subclass
`_DelegatedLoaderState` (lines 946-952); the `delegated` constructor
carries the identity of the `delegated_module` object. -/
inductive ExtractionLoaderState
  | base (fullname : String) (is_firstparty : Bool)
      (stub_strategy : _StubStrategy)
  | delegated (fullname : String) (is_firstparty : Bool)
      (stub_strategy : _StubStrategy) (delegated_module_id : Nat)
deriving Repr, DecidableEq

/-- The `stub_strategy` field of either loader-state variant. -/
def ExtractionLoaderState.stub_strategy : ExtractionLoaderState → _StubStrategy
  | .base _ _ s => s
  | .delegated _ _ s _ => s

/-- The parts of an `importlib` `ModuleSpec` read by `_clone_spec_attrs`
(lines 875-910): whether `submodule_search_locations` is set (non-`None`)
and the `origin`. -/
structure RawSpec where
  submodule_search_locations_isSome : Bool
  origin : Option String
deriving Repr, DecidableEq

/-- An entry of `module_stash_raw` as consumed by `_get_delegated_spec`:
the raw module object's identity and its `__spec__` (possibly absent). -/
structure RawModule where
  obj_id : Nat
  spec : Option RawSpec
deriving Repr, DecidableEq

/-- A `ModuleSpec` produced by `find_spec`: name, `loader_state`, whether
`submodule_search_locations` was set, and `origin`. -/
structure ModuleSpecM where
  name : String
  loader_state : ExtractionLoaderState
  submodule_search_locations_isSome : Bool
  origin : Option String
deriving Repr, DecidableEq

/-- `_clone_spec_attrs` (lines 875-910): when the source spec exists and
its `submodule_search_locations` is non-`None`, set the destination's to
`[]`; when the source spec has a non-`None` `origin`, copy it over. -/
def _clone_spec_attrs (src_spec : Option RawSpec) (dest_spec : ModuleSpecM) :
    ModuleSpecM :=
  let dest_spec :=
    if (src_spec.map (fun s => s.submodule_search_locations_isSome)).getD false then
      { dest_spec with submodule_search_locations_isSome := true }
    else
      dest_spec
  match src_spec.bind (fun s => s.origin) with
  | some origin => { dest_spec with origin := some origin }
  | none => dest_spec

/-- The ambient inputs `find_spec` consults: the loader's own fields
(`stubs_config`, `firstparty_packages`, `module_stash_raw`), the host's
`sys.stdlib_module_names`, and the two `ContextVar`s
(`_MODULE_TO_INSPECT.get(None)` and `_EXTRACTION_PHASE`, the latter
raising `LookupError` when unset, modelled by `none`). -/
structure FinderLoaderEnv where
  stubs_config : StubsConfig
  sys_stdlib : List String
  firstparty_packages : List String
  module_stash_raw : List (String × RawModule)
  module_to_inspect : Option String
  phase : Option _ExtractionPhase
deriving Repr, DecidableEq

/-- `_ExtractionFinderLoader._get_delegated_spec` (lines 621-662): decide
the strategy — `INSPECT` when the requested name equals the module under
inspection (checked first, short-circuiting the policy checks), else
`STUB` when the stub policy answers stub-eligible, else `TRACK` — then
look up the raw module (`self.module_stash_raw[fullname]`, a `KeyError`
when absent), build the delegated spec and clone the raw spec's import
attributes onto it. -/
def _get_delegated_spec (env : FinderLoaderEnv)
    (base_package fullname : String) : Except String ModuleSpecM :=
  let module_to_inspect := env.module_to_inspect
  let stub_strategy :=
    if module_to_inspect = some fullname then
      _StubStrategy.INSPECT
    else if env.stubs_config.use_stub_strategy env.sys_stdlib fullname
        = some true then
      _StubStrategy.STUB
    else
      _StubStrategy.TRACK
  match dictLookup env.module_stash_raw fullname with
  | none => .error "KeyError"
  | some raw_module =>
      let spec : ModuleSpecM :=
        { name := fullname
          loader_state := .delegated fullname
            (env.firstparty_packages.contains base_package) stub_strategy
            raw_module.obj_id
          submodule_search_locations_isSome := false
          origin := none }
      .ok (_clone_spec_attrs raw_module.spec spec)

/-- `_ExtractionFinderLoader.find_spec` (lines 553-619). `Except.error`
models an uncaught exception escaping the call (the `KeyError` from
`_get_delegated_spec`, or the `LookupError` from reading an unset phase
variable); `.ok none` models returning `None` (defer to the host's other
finders); `.ok (some spec)` models returning a spec. -/
def find_spec (env : FinderLoaderEnv) (fullname : String) :
    Except String (Option ModuleSpecM) :=
  let stub_strategy := env.stubs_config.use_stub_strategy env.sys_stdlib fullname
  let base_package := toplevelPackage fullname
  match stub_strategy with
  | none => .ok none
  | some strategy_flag =>
      if !env.firstparty_packages.contains base_package && strategy_flag then
        .ok (some
          { name := fullname
            loader_state := .base fullname false _StubStrategy.STUB
            submodule_search_locations_isSome := true
            origin := none })
      else
        match env.phase with
        | none => .error "LookupError"
        | some .EXPLORATION => .ok none
        | some .EXTRACTION =>
            (_get_delegated_spec env base_package fullname).map some
        | some .PREPARATION =>
            (_get_delegated_spec env base_package fullname).map some
        | some .HOOKED => .ok none

/-! ## Module-registry cleanup and the extraction loop
(`cleanup_sys`, lines 411-425; `_get_all_dirty_modules`, lines 427-444;
loop of `discover_and_extract`, lines 170-172) -/

/-- `sys.modules`, modelled as module fullname mapped to the identity of
the cached module object. -/
abbrev SysModules := List (String × Nat)

/-- `_get_all_dirty_modules` (lines 427-444): every name in `sys.modules`
whose top-level package is neither a `NOHOOK_PACKAGES` member nor a
standard-library module, minus the known-clean snapshot, minus the
unpurgeable set. -/
def _get_all_dirty_modules (sys_stdlib : List String)
    (known_clean_modules : List String) (unpurgeable : List String)
    (sys_modules : SysModules) : List String :=
  let module_names :=
    (sys_modules.map Prod.fst).filter (fun module_name =>
      let package_name := toplevelPackage module_name
      !NOHOOK_PACKAGES.contains package_name
        && !sys_stdlib.contains package_name)
  (module_names.filter (fun n => !known_clean_modules.contains n)).filter
    (fun n => !unpurgeable.contains n)

/-- One step of `cleanup_sys` (lines 419-425): remove the named module
from `sys.modules` unless it is unpurgeable, in which case it is reloaded
in place (`importlib.reload` re-executes into the same module object, so
its identity is unchanged). A missing name is a no-op. -/
def cleanup_sysStep (unpurgeable : List String) (sys_mods : SysModules)
    (module_to_remove : String) : SysModules :=
  match dictLookup sys_mods module_to_remove with
  | none => sys_mods
  | some _ =>
      if unpurgeable.contains module_to_remove then sys_mods
      else dictRemove sys_mods module_to_remove

/-- `cleanup_sys` (lines 411-425): apply the removal step to each name. -/
def cleanup_sys (unpurgeable : List String) (modules_to_remove : List String)
    (sys_modules : SysModules) : SysModules :=
  modules_to_remove.foldl (cleanup_sysStep unpurgeable) sys_modules

/-- The host module-cache state during a run: `sys.modules` and a counter
supplying fresh object identities. -/
structure ImportState where
  sys_modules : SysModules
  next_obj_id : Nat
deriving Repr, DecidableEq

/-- Modelled host import machinery (the behaviour the loop of
`discover_and_extract` relies on; it is the host's, not code of
`_extraction.py`): `import_module(name)` returns the cached module object
from `sys.modules` when the name is present, and otherwise has the
installed finder/loader build a fresh module object — a fresh identity —
which is cached in `sys.modules`. -/
def import_module_cached (name : String) (st : ImportState) :
    Nat × ImportState :=
  match dictLookup st.sys_modules name with
  | some obj_id => (obj_id, st)
  | none =>
      (st.next_obj_id,
       { sys_modules := dictSet st.sys_modules name st.next_obj_id
         next_obj_id := st.next_obj_id + 1 })

/-- One iteration of the extraction loop in `discover_and_extract` (lines
170-172): first `self.cleanup_sys(self._get_all_dirty_modules())`, then
`self.extract_firstparty(module_name)`, during which re-executing the
inspectee imports each of its stub dependencies (`stub_imports`) through
the hook. -/
def extraction_loop_iteration (sys_stdlib known_clean_modules unpurgeable : List String)
    (stub_imports : List String) (st : ImportState) : ImportState :=
  let dirty := _get_all_dirty_modules sys_stdlib known_clean_modules
    unpurgeable st.sys_modules
  let st' : ImportState :=
    { st with sys_modules := cleanup_sys unpurgeable dirty st.sys_modules }
  stub_imports.foldl (fun s n => (import_module_cached n s).2) st'
/-! ## Concrete instances exercising the definitions -/

/-- The reserved-attribute set consulted by the variant an access goes
through: `_UNTRACKED_IMPORT_ATTRS` for the re-initializing wrapper,
`_CLONABLE_IMPORT_ATTRS` for the delegating wrapper. -/
def TrackedAccess.reservedAttrs (a : TrackedAccess) : List String :=
  if a.firstparty then _UNTRACKED_IMPORT_ATTRS else _CLONABLE_IMPORT_ATTRS

/-- The `tracked_src` value an access would record:
`(module_name, attribute_name)`. -/
def TrackedAccess.source (a : TrackedAccess) : TrackingImportSource :=
  (a.module_name, a.name)

/-- A delegating-wrapper access to attribute `attr` of `extlib.mod`,
resolving to the object with identity 5. -/
def demoAccess : TrackedAccess :=
  { firstparty := false
    name := "attr"
    module_name := "extlib.mod"
    src := [("attr", ⟨5⟩)] }

/-- A registry in which identity 9 is already tombstoned and identity 5 has
a definite origin differing from `demoAccess.source`. -/
def demoRegistry : TrackingRegistry :=
  [(9, none), (5, some ("other.mod", "attr"))]

/-- A loader environment during `EXTRACTION` with first-party package
`pkg`, module `pkg.main` under inspection and stashed raw. -/
def demoInspectEnv : FinderLoaderEnv :=
  { stubs_config :=
      { enable_stubs := true
        global_allowlist := none
        firstparty_blocklist := []
        thirdparty_blocklist := [] }
    sys_stdlib := ["sys"]
    firstparty_packages := ["pkg"]
    module_stash_raw := [("pkg.main", { obj_id := 7, spec := some { submodule_search_locations_isSome := true, origin := some "pkg/main.py" } })]
    module_to_inspect := some "pkg.main"
    phase := some _ExtractionPhase.EXTRACTION }

/-- The spec `find_spec demoInspectEnv "pkg.main"` produces. -/
def demoInspectSpec : ModuleSpecM :=
  { name := "pkg.main"
    loader_state := .delegated "pkg.main" true _StubStrategy.INSPECT 7
    submodule_search_locations_isSome := true
    origin := some "pkg/main.py" }

/-- A loader environment whose stub policy stubs everything, with
first-party package `pkg`; used for third-party stub requests. -/
def demoStubEnv : FinderLoaderEnv :=
  { stubs_config :=
      { enable_stubs := true
        global_allowlist := none
        firstparty_blocklist := []
        thirdparty_blocklist := [] }
    sys_stdlib := ["sys"]
    firstparty_packages := ["pkg"]
    module_stash_raw := []
    module_to_inspect := none
    phase := none }

/-- An empty host module cache at the start of the extraction loop. -/
def demoImportState : ImportState := { sys_modules := [], next_obj_id := 0 }

/-- One extraction-loop iteration whose inspectee imports the stubbed
third-party dependency `thirdpkg`; stdlib is just `sys`, the known-clean
snapshot and the unpurgeable set are empty. -/
def demoLoopIteration (st : ImportState) : ImportState :=
  extraction_loop_iteration ["sys"] [] [] ["thirdpkg"] st

/-- A second-pass executor: the static-analysis-on re-execution overwrites
`x` with a stand-in (identity 99) and defines the previously hidden name
`HIDDEN` (identity 42). -/
def demoSecondPass (ns : ModuleNamespace) : ModuleNamespace :=
  dictSet (dictSet ns "x" { id := 99 }) "HIDDEN" { id := 42 }

/-- A first-pass namespace holding `x` with identity 1. -/
def demoFirstPassNamespace : ModuleNamespace := [("x", { id := 1 })]

/-- The stub policy of the documented allowlist scenario: stubs enabled,
allowlist exactly `{"pkg.a"}`. -/
def scenarioAllowlistConfig : StubsConfig :=
  { enable_stubs := true
    global_allowlist := some ["pkg.a"]
    firstparty_blocklist := []
    thirdparty_blocklist := [] }

/-- A stub policy with an allowlist present but stubbing globally
disabled; constructible directly from `StubsConfig`. -/
def disabledAllowlistConfig : StubsConfig :=
  { enable_stubs := false
    global_allowlist := some ["pkg.a"]
    firstparty_blocklist := []
    thirdparty_blocklist := [] }

/-- `demoStubEnv` during the exploration phase. -/
def demoExplorationEnv : FinderLoaderEnv :=
  { demoStubEnv with phase := some _ExtractionPhase.EXPLORATION }

/-- A `sys.meta_path` that already holds an extraction loader. -/
def demoMetaPath : List MetaPathEntry :=
  [MetaPathEntry.extractionLoader 0, MetaPathEntry.hostFinder 1]

/-! ## Library lemmas about the dict model -/

theorem dictLookup_dictSet_self {κ ν : Type} [DecidableEq κ]
    (d : List (κ × ν)) (key : κ) (v : ν) :
    dictLookup (dictSet d key v) key = some v := by
  induction d with
  | nil => simp [dictSet, dictLookup]
  | cons kv rest ih =>
    obtain ⟨k, w⟩ := kv
    by_cases hk : k = key
    · subst hk
      simp [dictSet, dictLookup]
    · simp [dictSet, dictLookup, hk, ih]

theorem dictLookup_dictSet_other {κ ν : Type} [DecidableEq κ]
    (d : List (κ × ν)) (key other : κ) (v : ν) (hne : other ≠ key) :
    dictLookup (dictSet d key v) other = dictLookup d other := by
  induction d with
  | nil =>
    have hko : ¬ key = other := fun h => hne h.symm
    simp [dictSet, dictLookup, hko]
  | cons kv rest ih =>
    obtain ⟨k, w⟩ := kv
    by_cases hk : k = key
    · subst hk
      have hko : ¬ k = other := fun h => hne h.symm
      simp [dictSet, dictLookup, hko]
    · by_cases ho : k = other
      · simp [dictSet, dictLookup, hk, ho, hne]
      · simp [dictSet, dictLookup, hk, ho, ih]

theorem dictLookup_dictRemove_self {κ ν : Type} [DecidableEq κ]
    (d : List (κ × ν)) (key : κ) :
    dictLookup (dictRemove d key) key = none := by
  induction d with
  | nil => simp [dictRemove, dictLookup]
  | cons kv rest ih =>
    obtain ⟨k, w⟩ := kv
    by_cases hk : k = key
    · simpa [dictRemove, dictLookup, hk] using ih
    · simpa [dictRemove, dictLookup, hk] using ih

theorem dictLookup_dictRemove_other {κ ν : Type} [DecidableEq κ]
    (d : List (κ × ν)) (key other : κ) (hne : other ≠ key) :
    dictLookup (dictRemove d other) key = dictLookup d key := by
  induction d with
  | nil => simp [dictRemove, dictLookup]
  | cons kv rest ih =>
    obtain ⟨k, w⟩ := kv
    by_cases ho : k = other
    · have hkk : ¬ k = key := by rw [ho]; exact hne
      simpa [dictRemove, dictLookup, List.filter_cons, ho, hkk, hne] using ih
    · by_cases hk : k = key
      · have hko : ¬ key = other := by rw [← hk]; exact ho
        simp [dictRemove, dictLookup, List.filter_cons, ho, hk, hko]
      · simpa [dictRemove, dictLookup, List.filter_cons, ho, hk] using ih

theorem dictContains_dictSet_self {κ ν : Type} [DecidableEq κ]
    (d : List (κ × ν)) (key : κ) (v : ν) :
    dictContains (dictSet d key v) key = true := by
  unfold dictContains
  rw [dictLookup_dictSet_self]
  rfl

theorem dictContains_dictSet_other {κ ν : Type} [DecidableEq κ]
    (d : List (κ × ν)) (key other : κ) (v : ν) (hne : other ≠ key) :
    dictContains (dictSet d key v) other = dictContains d other := by
  unfold dictContains
  rw [dictLookup_dictSet_other _ _ _ _ hne]

theorem dictLookup_eq_none_of_not_contains {κ ν : Type} [DecidableEq κ]
    (d : List (κ × ν)) (key : κ) (h : dictContains d key = false) :
    dictLookup d key = none := by
  unfold dictContains at h
  cases hl : dictLookup d key with
  | none => rfl
  | some v => rw [hl] at h; simp at h

/-! ## Helper lemmas about the tracking registry -/

theorem recordImport_tombstone (registry : TrackingRegistry)
    (obj_id i : Nat) (src : TrackingImportSource)
    (h : dictLookup registry i = some none) :
    dictLookup (recordImport registry obj_id src) i = some none := by
  unfold recordImport
  cases hl : dictLookup registry obj_id with
  | none =>
    have hne : i ≠ obj_id := by
      intro hh
      rw [hh, hl] at h
      cases h
    rw [dictLookup_dictSet_other _ _ _ _ hne]
    exact h
  | some existing =>
    cases existing with
    | none => exact h
    | some existing_record =>
      by_cases he : existing_record = src
      · simp only [he, if_true]
        exact h
      · simp only [he, if_false]
        by_cases hio : i = obj_id
        · rw [hio, hl] at h
          cases h
        · rw [dictLookup_dictSet_other _ _ _ _ hio]
          exact h

theorem wrapped_tracking_getattr_registry (name module_name : String)
    (src : ModuleNamespace) (reg : TrackingRegistry) :
    (_wrapped_tracking_getattr name module_name src (some reg)).2 =
      some (if _CLONABLE_IMPORT_ATTRS.contains name then reg
            else
              match dictLookup src name with
              | none => reg
              | some obj => recordImport reg obj.id (module_name, name)) := by
  unfold _wrapped_tracking_getattr
  by_cases hc : _CLONABLE_IMPORT_ATTRS.contains name = true
  · rw [if_pos hc, if_pos hc]
  · rw [if_neg hc, if_neg hc]
    cases hl : dictLookup src name with
    | none => rfl
    | some obj => rfl

theorem firstparty_getattribute_registry (name module_name : String)
    (module_dict : ModuleNamespace) (reg : TrackingRegistry) :
    (_FirstpartyTrackingModule_getattribute name module_name module_dict
        (some reg)).2 =
      some (if _UNTRACKED_IMPORT_ATTRS.contains name then reg
            else
              match dictLookup module_dict name with
              | none => reg
              | some obj => recordImport reg obj.id (module_name, name)) := by
  unfold _FirstpartyTrackingModule_getattribute
  by_cases hc : _UNTRACKED_IMPORT_ATTRS.contains name = true
  · rw [if_pos hc, if_pos hc]
  · rw [if_neg hc, if_neg hc]
    cases hl : dictLookup module_dict name with
    | none => rfl
    | some obj => rfl

theorem applyAccess_eq (registry : TrackingRegistry) (a : TrackedAccess) :
    applyAccess registry a =
      if a.reservedAttrs.contains a.name then registry
      else
        match dictLookup a.src a.name with
        | none => registry
        | some obj => recordImport registry obj.id a.source := by
  by_cases hfp : a.firstparty = true
  · have h1 : applyAccess registry a
        = (_FirstpartyTrackingModule_getattribute a.name a.module_name a.src
            (some registry)).2.getD registry := by
      unfold applyAccess
      rw [if_pos hfp]
    rw [h1, firstparty_getattribute_registry a.name a.module_name a.src registry]
    unfold TrackedAccess.reservedAttrs TrackedAccess.source
    rw [if_pos hfp]
    rfl
  · have h1 : applyAccess registry a
        = (_wrapped_tracking_getattr a.name a.module_name a.src
            (some registry)).2.getD registry := by
      unfold applyAccess
      rw [if_neg hfp]
    rw [h1, wrapped_tracking_getattr_registry a.name a.module_name a.src registry]
    unfold TrackedAccess.reservedAttrs TrackedAccess.source
    rw [if_neg hfp]
    rfl

theorem applyAccess_tombstone (registry : TrackingRegistry)
    (a : TrackedAccess) (i : Nat)
    (h : dictLookup registry i = some none) :
    dictLookup (applyAccess registry a) i = some none := by
  rw [applyAccess_eq]
  by_cases hr : a.reservedAttrs.contains a.name = true
  · simp only [hr, if_true]
    exact h
  · simp only [hr, if_false]
    cases hl : dictLookup a.src a.name with
    | none => exact h
    | some obj => exact recordImport_tombstone _ _ _ _ h

theorem applyAccesses_tombstone (accesses : List TrackedAccess)
    (registry : TrackingRegistry) (i : Nat)
    (h : dictLookup registry i = some none) :
    dictLookup (applyAccesses registry accesses) i = some none := by
  induction accesses generalizing registry with
  | nil => exact h
  | cons a rest ih =>
    exact ih (applyAccess registry a) (applyAccess_tombstone registry a i h)

/-! ## Helper lemmas about the merge-back loop -/

theorem mergeMissingKeys_lookup (expanded dest : ModuleNamespace)
    (key : String) :
    dictLookup (mergeMissingKeys dest expanded) key =
      if dictContains dest key then dictLookup dest key
      else dictLookup expanded key := by
  induction expanded generalizing dest with
  | nil =>
    by_cases h : dictContains dest key = true
    · simp [mergeMissingKeys, h]
    · have hn := dictLookup_eq_none_of_not_contains dest key
        (by simpa using h)
      simp [mergeMissingKeys, h, hn, dictLookup]
  | cons kv rest ih =>
    obtain ⟨k, v⟩ := kv
    have hstep : mergeMissingKeys dest ((k, v) :: rest)
        = mergeMissingKeys (mergeMissingKeysStep dest (k, v)) rest := rfl
    rw [hstep, ih]
    unfold mergeMissingKeysStep
    by_cases hck : dictContains dest k = true
    · simp only [hck, if_true]
      by_cases hk : dictContains dest key = true
      · simp [hk]
      · have hkk : ¬ k = key := by
          intro hh
          rw [hh] at hck
          exact absurd hck (by simpa using hk)
        simp [hk, dictLookup, hkk]
    · simp only [hck, Bool.false_eq_true, if_false]
      by_cases hkeq : k = key
      · subst hkeq
        have hk : dictContains dest k = false := by simpa using hck
        simp [dictContains_dictSet_self, hk, dictLookup_dictSet_self,
          dictLookup]
      · have hne : key ≠ k := fun hh => hkeq hh.symm
        rw [dictContains_dictSet_other _ _ _ _ hne,
          dictLookup_dictSet_other _ _ _ _ hne]
        by_cases hk : dictContains dest key = true
        · simp [hk]
        · simp [hk, dictLookup, hkeq]

/-! ## Helper lemmas about registry cleanup and the module cache -/

theorem cleanup_sysStep_preserves_none (unpurgeable : List String)
    (sys_mods : SysModules) (m name : String)
    (h : dictLookup sys_mods name = none) :
    dictLookup (cleanup_sysStep unpurgeable sys_mods m) name = none := by
  unfold cleanup_sysStep
  cases hl : dictLookup sys_mods m with
  | none => exact h
  | some obj_id =>
    by_cases hu : unpurgeable.contains m = true
    · rw [if_pos hu]
      exact h
    · rw [if_neg hu]
      by_cases hnm : name = m
      · rw [hnm]
        exact dictLookup_dictRemove_self _ _
      · rw [dictLookup_dictRemove_other sys_mods name m
          (fun hh => hnm hh.symm)]
        exact h

theorem cleanup_sys_preserves_none (unpurgeable : List String)
    (modules_to_remove : List String) (sys_mods : SysModules) (name : String)
    (h : dictLookup sys_mods name = none) :
    dictLookup (cleanup_sys unpurgeable modules_to_remove sys_mods) name
      = none := by
  induction modules_to_remove generalizing sys_mods with
  | nil => exact h
  | cons m rest ih =>
    exact ih _ (cleanup_sysStep_preserves_none unpurgeable sys_mods m name h)

theorem cleanup_sys_removes (unpurgeable : List String)
    (modules_to_remove : List String) (sys_mods : SysModules) (name : String)
    (hmem : modules_to_remove.contains name = true)
    (hu : unpurgeable.contains name = false) :
    dictLookup (cleanup_sys unpurgeable modules_to_remove sys_mods) name
      = none := by
  induction modules_to_remove generalizing sys_mods with
  | nil => simp at hmem
  | cons m rest ih =>
    by_cases hnm : name = m
    · subst hnm
      have hstep : dictLookup (cleanup_sysStep unpurgeable sys_mods name) name
          = none := by
        unfold cleanup_sysStep
        cases hl : dictLookup sys_mods name with
        | none => exact hl
        | some obj_id =>
          rw [if_neg (by rw [hu]; exact Bool.false_ne_true)]
          exact dictLookup_dictRemove_self _ _
      exact cleanup_sys_preserves_none unpurgeable rest _ name hstep
    · have hmem' : rest.contains name = true := by
        have hsplit : name = m ∨ name ∈ rest := by simpa using hmem
        rcases hsplit with hh | hh
        · exact absurd hh hnm
        · simpa using hh
      exact ih _ hmem'

/-! ## Helper lemmas about the stub policy -/

theorem use_stub_strategy_bypass (cfg : StubsConfig) (sys_stdlib : List String)
    (fullname : String)
    (hby : (sys_stdlib.contains (toplevelPackage fullname)
        || NOHOOK_PACKAGES.contains (toplevelPackage fullname)) = true) :
    cfg.use_stub_strategy sys_stdlib fullname = none := by
  simp only [StubsConfig.use_stub_strategy]
  rw [if_pos hby]

theorem use_stub_strategy_allowlist (cfg : StubsConfig)
    (allowlist sys_stdlib : List String) (fullname : String)
    (hal : cfg.global_allowlist = some allowlist)
    (hen : cfg.enable_stubs = true)
    (hstd : sys_stdlib.contains (toplevelPackage fullname) = false)
    (hnh : NOHOOK_PACKAGES.contains (toplevelPackage fullname) = false) :
    cfg.use_stub_strategy sys_stdlib fullname
      = some (allowlist.contains fullname) := by
  have hby : ¬ ((sys_stdlib.contains (toplevelPackage fullname)
      || NOHOOK_PACKAGES.contains (toplevelPackage fullname)) = true) := by
    rw [hstd, hnh]
    decide
  simp only [StubsConfig.use_stub_strategy]
  rw [hen, hal, if_neg hby]
  rfl

/-! ## Claim theorems -/

/-- C1: for every tracking-registry state and every sequence of attribute
accesses recorded through either tracking-wrapper variant
(`_wrapped_tracking_getattr` or `_FirstpartyTrackingModule.__getattribute__`),
once the registry entry for an object identity holds the tombstone (`None`),
no later recorded access changes it back to a definite
`(module_name, attribute_name)` pair; moreover the first access records its
origin, a repeat access from the same origin leaves the entry unchanged,
and an access from a different origin sets the tombstone. -/
theorem provenance_registry_tombstone_monotonic :
    (∀ (accesses : List TrackedAccess) (registry : TrackingRegistry) (i : Nat),
        dictLookup registry i = some none →
        dictLookup (applyAccesses registry accesses) i = some none)
    ∧ (∀ (a : TrackedAccess) (registry : TrackingRegistry) (obj : PyObj),
        a.reservedAttrs.contains a.name = false →
        dictLookup a.src a.name = some obj →
        dictLookup registry obj.id = none →
        dictLookup (applyAccess registry a) obj.id = some (some a.source))
    ∧ (∀ (a : TrackedAccess) (registry : TrackingRegistry) (obj : PyObj),
        dictLookup a.src a.name = some obj →
        dictLookup registry obj.id = some (some a.source) →
        applyAccess registry a = registry)
    ∧ (∀ (a : TrackedAccess) (registry : TrackingRegistry) (obj : PyObj)
          (prior : TrackingImportSource),
        a.reservedAttrs.contains a.name = false →
        dictLookup a.src a.name = some obj →
        dictLookup registry obj.id = some (some prior) →
        prior ≠ a.source →
        dictLookup (applyAccess registry a) obj.id = some none) := by
  refine ⟨applyAccesses_tombstone, ?_, ?_, ?_⟩
  · intro a registry obj hres hl hmiss
    have hcond : ¬ (a.reservedAttrs.contains a.name = true) := by
      rw [hres]
      exact Bool.false_ne_true
    rw [applyAccess_eq, if_neg hcond, hl]
    show dictLookup (recordImport registry obj.id a.source) obj.id
        = some (some a.source)
    unfold recordImport
    rw [hmiss]
    exact dictLookup_dictSet_self _ _ _
  · intro a registry obj hl hsame
    rw [applyAccess_eq]
    by_cases hres : a.reservedAttrs.contains a.name = true
    · rw [if_pos hres]
    · rw [if_neg hres, hl]
      show recordImport registry obj.id a.source = registry
      unfold recordImport
      rw [hsame]
      simp
  · intro a registry obj prior hres hl hprior hne
    have hcond : ¬ (a.reservedAttrs.contains a.name = true) := by
      rw [hres]
      exact Bool.false_ne_true
    rw [applyAccess_eq, if_neg hcond, hl]
    show dictLookup (recordImport registry obj.id a.source) obj.id = some none
    unfold recordImport
    rw [hprior]
    show dictLookup
        (if prior = a.source then registry else dictSet registry obj.id none)
        obj.id = some none
    rw [if_neg hne]
    exact dictLookup_dictSet_self _ _ _

/-- Witness for C1: in `demoRegistry`, identity 9 is tombstoned and stays
tombstoned after `demoAccess`; identity 5 has a different prior origin, so
`demoAccess` tombstones it. -/
theorem provenance_registry_tombstone_monotonic_witness :
    dictLookup demoRegistry 9 = some none
    ∧ dictLookup (applyAccesses demoRegistry [demoAccess]) 9 = some none
    ∧ demoAccess.reservedAttrs.contains demoAccess.name = false
    ∧ dictLookup demoAccess.src demoAccess.name = some { id := 5 }
    ∧ dictLookup demoRegistry 5 = some (some ("other.mod", "attr"))
    ∧ ("other.mod", "attr") ≠ demoAccess.source
    ∧ dictLookup (applyAccess demoRegistry demoAccess) 5 = some none :=
  ⟨by decide,
   provenance_registry_tombstone_monotonic.1 [demoAccess] demoRegistry 9
     (by decide),
   by decide, by decide, by decide, by decide,
   provenance_registry_tombstone_monotonic.2.2.2 demoAccess demoRegistry
     { id := 5 } ("other.mod", "attr") (by decide) (by decide) (by decide)
     (by decide)⟩

/-- C2 counterexample: `discover_and_extract` never assigns the
`PREPARATION` phase, so the run's phase trace is not the claimed four-phase
sequence — a phase is skipped. -/
theorem discover_phase_preparation_skipped :
    discover_and_extract_phaseTrace.contains _ExtractionPhase.PREPARATION
        = false
    ∧ discover_and_extract_phaseTrace
        ≠ [_ExtractionPhase.HOOKED, _ExtractionPhase.EXPLORATION,
           _ExtractionPhase.PREPARATION, _ExtractionPhase.EXTRACTION] := by
  decide

/-- C2 amended: within a single `discover_and_extract` run the phase
variable — which holds exactly one value at a time — is assigned exactly
`HOOKED`, `EXPLORATION`, `EXTRACTION`, in strictly increasing phase order;
`PREPARATION` is skipped; and on exit the variable is restored to its prior
value. -/
theorem discover_phase_flow_monotonic :
    ∀ v : PhaseVar,
      (discover_and_extract_phaseVar v).setTrace
          = v.setTrace ++ [_ExtractionPhase.HOOKED, _ExtractionPhase.EXPLORATION,
              _ExtractionPhase.EXTRACTION]
      ∧ (discover_and_extract_phaseVar v).value = v.value
      ∧ List.Chain' (fun a b => phaseIndex a < phaseIndex b)
          [_ExtractionPhase.HOOKED, _ExtractionPhase.EXPLORATION,
           _ExtractionPhase.EXTRACTION] := by
  intro v
  refine ⟨?_,
    rfl,
    List.chain'_cons.mpr ⟨by decide,
      List.chain'_cons.mpr ⟨by decide, List.chain'_singleton _⟩⟩⟩
  simp [discover_and_extract_phaseVar, PhaseVar.set, PhaseVar.resetTo]

/-- C6: in the second, static-analysis-flag-on execution pass performed by
`_recover_typecheck_blocks_via_second_inspectee_reexec`, every key already
present in the destination namespace after the first pass keeps its
first-pass value, and only keys absent from the destination namespace are
added, taken from the scratch namespace produced by re-executing over a
copy of the first pass's results. -/
theorem second_reexec_merges_only_missing :
    ∀ (execSecondPass : ModuleNamespace → ModuleNamespace)
      (dest_namespace : ModuleNamespace) (key : String),
      (dictContains dest_namespace key = true →
        dictLookup (_recover_typecheck_blocks_via_second_inspectee_reexec
            execSecondPass dest_namespace) key
          = dictLookup dest_namespace key)
      ∧ (dictContains dest_namespace key = false →
        dictLookup (_recover_typecheck_blocks_via_second_inspectee_reexec
            execSecondPass dest_namespace) key
          = dictLookup (execSecondPass dest_namespace) key) := by
  intro execSecondPass dest key
  constructor
  · intro h
    show dictLookup (mergeMissingKeys dest (execSecondPass dest)) key = _
    rw [mergeMissingKeys_lookup, if_pos h]
  · intro h
    show dictLookup (mergeMissingKeys dest (execSecondPass dest)) key = _
    rw [mergeMissingKeys_lookup,
      if_neg (by rw [h]; exact Bool.false_ne_true)]

/-- Witness for C6: `x` (present after the first pass) keeps its first-pass
value even though the second pass overwrote it in the scratch namespace;
`HIDDEN` (absent) is added from the scratch namespace. -/
theorem second_reexec_merges_only_missing_witness :
    dictContains demoFirstPassNamespace "x" = true
    ∧ dictLookup (_recover_typecheck_blocks_via_second_inspectee_reexec
        demoSecondPass demoFirstPassNamespace) "x"
        = dictLookup demoFirstPassNamespace "x"
    ∧ dictContains demoFirstPassNamespace "HIDDEN" = false
    ∧ dictLookup (_recover_typecheck_blocks_via_second_inspectee_reexec
        demoSecondPass demoFirstPassNamespace) "HIDDEN"
        = dictLookup (demoSecondPass demoFirstPassNamespace) "HIDDEN" :=
  ⟨by decide,
   (second_reexec_merges_only_missing demoSecondPass demoFirstPassNamespace
     "x").1 (by decide),
   by decide,
   (second_reexec_merges_only_missing demoSecondPass demoFirstPassNamespace
     "HIDDEN").2 (by decide)⟩

/-- C7: installing a second resolution hook while an
`_ExtractionFinderLoader` is already on `sys.meta_path` raises immediately,
as does activating a tracking registry while one is already active, and in
both cases the failing call leaves the existing state unchanged. -/
theorem double_install_or_double_registry_raises :
    (∀ (self_id : Nat) (meta_path : List MetaPathEntry),
        meta_path.any MetaPathEntry.isExtractionLoader = true →
        (install self_id meta_path).1
            = Except.error "Cannot have multiple active extraction loaders!"
          ∧ (install self_id meta_path).2 = meta_path)
    ∧ (∀ (registry active_registry : TrackingRegistry),
        (_activatate_tracking_registry registry (some active_registry)).1
            = Except.error
                "Cannot have multiple activated tracking registries!"
          ∧ (_activatate_tracking_registry registry (some active_registry)).2
              = some active_registry) := by
  constructor
  · intro self_id meta_path h
    unfold install
    rw [if_pos h]
    exact ⟨rfl, rfl⟩
  · intro registry active_registry
    unfold _activatate_tracking_registry
    have hcond : (some active_registry).isSome = true := rfl
    rw [if_pos hcond]
    exact ⟨rfl, rfl⟩

/-- Witness for C7: a second `install` into `demoMetaPath` (which already
holds loader 0) errors and leaves it unchanged; activating over
`demoRegistry` errors and keeps it active. -/
theorem double_install_or_double_registry_raises_witness :
    demoMetaPath.any MetaPathEntry.isExtractionLoader = true
    ∧ (install 2 demoMetaPath).1
        = Except.error "Cannot have multiple active extraction loaders!"
    ∧ (install 2 demoMetaPath).2 = demoMetaPath
    ∧ (_activatate_tracking_registry [] (some demoRegistry)).2
        = some demoRegistry :=
  ⟨by decide,
   (double_install_or_double_registry_raises.1 2 demoMetaPath (by decide)).1,
   (double_install_or_double_registry_raises.1 2 demoMetaPath (by decide)).2,
   (double_install_or_double_registry_raises.2 [] demoRegistry).2⟩

/-- C8 counterexample: a `StubsConfig` with stubbing globally disabled but
an allowlist present answers track (`some false`) for the allowlisted name
`pkg.a` — the allowlist does not override the global enable flag, so "the
name is stub-eligible exactly when it is in the allowlist" fails. -/
theorem allowlist_override_counterexample :
    disabledAllowlistConfig.global_allowlist = some ["pkg.a"]
    ∧ (["pkg.a"].contains "pkg.a") = true
    ∧ disabledAllowlistConfig.use_stub_strategy ["sys"] "pkg.a"
        = some false := by
  decide

/-- C8 amended: when the allowlist is present the blocklists are ignored
(the policy's answer does not depend on them), and — provided stubbing is
enabled and the name is not bypassed as stdlib or `NOHOOK_PACKAGES` — the
name is stub-eligible exactly when it is in the allowlist; with stubbing
disabled the allowlist is ignored and the name is tracked. The documented
scenario holds: allowlist `{"pkg.a"}` with stubs enabled yields stub for
`pkg.a` and track (not stub) for `pkg.b`. -/
theorem allowlist_overrides_blocklists :
    (∀ (cfg : StubsConfig) (allowlist sys_stdlib fb tb : List String)
        (fullname : String),
        cfg.global_allowlist = some allowlist →
        StubsConfig.use_stub_strategy
            { cfg with firstparty_blocklist := fb, thirdparty_blocklist := tb }
            sys_stdlib fullname
          = cfg.use_stub_strategy sys_stdlib fullname)
    ∧ (∀ (cfg : StubsConfig) (allowlist sys_stdlib : List String)
        (fullname : String),
        cfg.global_allowlist = some allowlist →
        cfg.enable_stubs = true →
        sys_stdlib.contains (toplevelPackage fullname) = false →
        NOHOOK_PACKAGES.contains (toplevelPackage fullname) = false →
        cfg.use_stub_strategy sys_stdlib fullname
          = some (allowlist.contains fullname))
    ∧ (∀ (cfg : StubsConfig) (allowlist sys_stdlib : List String)
        (fullname : String),
        cfg.global_allowlist = some allowlist →
        cfg.enable_stubs = false →
        sys_stdlib.contains (toplevelPackage fullname) = false →
        NOHOOK_PACKAGES.contains (toplevelPackage fullname) = false →
        cfg.use_stub_strategy sys_stdlib fullname = some false)
    ∧ scenarioAllowlistConfig.use_stub_strategy ["sys"] "pkg.a" = some true
    ∧ scenarioAllowlistConfig.use_stub_strategy ["sys"] "pkg.b"
        = some false := by
  refine ⟨?_, ?_, ?_, by decide, by decide⟩
  · intro cfg allowlist sys_stdlib fb tb fullname hal
    simp [StubsConfig.use_stub_strategy, hal]
  · intro cfg allowlist sys_stdlib fullname hal hen hstd hnh
    exact use_stub_strategy_allowlist cfg allowlist sys_stdlib fullname hal
      hen hstd hnh
  · intro cfg allowlist sys_stdlib fullname hal hen hstd hnh
    have hby : ¬ ((sys_stdlib.contains (toplevelPackage fullname)
        || NOHOOK_PACKAGES.contains (toplevelPackage fullname)) = true) := by
      rw [hstd, hnh]
      decide
    simp only [StubsConfig.use_stub_strategy]
    rw [hen, if_neg hby]
    rfl

/-- Witness for C8 amended: `pkg.b` is not bypassed, the scenario config
has stubs enabled with allowlist `{"pkg.a"}`, and its answer is exactly
allowlist membership (track, since `pkg.b` is not a member). -/
theorem allowlist_overrides_blocklists_witness :
    scenarioAllowlistConfig.global_allowlist = some ["pkg.a"]
    ∧ scenarioAllowlistConfig.enable_stubs = true
    ∧ (["sys"].contains (toplevelPackage "pkg.b")) = false
    ∧ NOHOOK_PACKAGES.contains (toplevelPackage "pkg.b") = false
    ∧ scenarioAllowlistConfig.use_stub_strategy ["sys"] "pkg.b"
        = some (["pkg.a"].contains "pkg.b") :=
  ⟨by decide, by decide, by decide, by decide,
   allowlist_overrides_blocklists.2.1 scenarioAllowlistConfig ["pkg.a"]
     ["sys"] "pkg.b" (by decide) (by decide) (by decide) (by decide)⟩

/-- C9: for every attribute name outside `_CLONABLE_IMPORT_ATTRS`, the
value `_wrapped_tracking_getattr` returns is exactly the attribute of the
real source module, and the returned value is identical across two runs
differing only in whether a tracking registry is active and in the
registry's prior contents — recording provenance never changes what is
returned. -/
theorem wrapped_tracking_getattr_noninterference :
    ∀ (name module_name : String) (src_module : ModuleNamespace)
      (registry1 registry2 : Option TrackingRegistry),
      _CLONABLE_IMPORT_ATTRS.contains name = false →
      ((_wrapped_tracking_getattr name module_name src_module registry1).1
          = (_wrapped_tracking_getattr name module_name src_module registry2).1
        ∧ ∀ obj : PyObj,
            dictLookup src_module name = some obj →
            (_wrapped_tracking_getattr name module_name src_module registry1).1
              = Except.ok obj) := by
  intro name module_name src registry1 registry2 h
  have hcond : ¬ (_CLONABLE_IMPORT_ATTRS.contains name = true) := by
    rw [h]
    exact Bool.false_ne_true
  constructor
  · unfold _wrapped_tracking_getattr
    rw [if_neg hcond, if_neg hcond]
    cases hl : dictLookup src name with
    | none => cases registry1 <;> cases registry2 <;> rfl
    | some obj => cases registry1 <;> cases registry2 <;> rfl
  · intro obj hl
    unfold _wrapped_tracking_getattr
    rw [if_neg hcond, hl]
    cases registry1 <;> rfl

/-- Witness for C9: accessing `attr` through the delegating wrapper with no
registry and with `demoRegistry` active returns the same object, namely the
source module's own value (identity 5). -/
theorem wrapped_tracking_getattr_noninterference_witness :
    _CLONABLE_IMPORT_ATTRS.contains "attr" = false
    ∧ (_wrapped_tracking_getattr "attr" "extlib.mod" [("attr", { id := 5 })]
          none).1
        = (_wrapped_tracking_getattr "attr" "extlib.mod"
            [("attr", { id := 5 })] (some demoRegistry)).1
    ∧ dictLookup [("attr", ({ id := 5 } : PyObj))] "attr" = some { id := 5 }
    ∧ (_wrapped_tracking_getattr "attr" "extlib.mod" [("attr", { id := 5 })]
          none).1
        = Except.ok { id := 5 } :=
  ⟨by decide,
   (wrapped_tracking_getattr_noninterference "attr" "extlib.mod"
     [("attr", { id := 5 })] none (some demoRegistry) (by decide)).1,
   by decide,
   (wrapped_tracking_getattr_noninterference "attr" "extlib.mod"
     [("attr", { id := 5 })] none (some demoRegistry) (by decide)).2
     { id := 5 } (by decide)⟩

/-- C10: `from_gather_kwargs`, given any non-boolean collection for
`enabled_stubs` (the empty collection included), produces a config with
stubs enabled and the allowlist equal (as a set) to the collection; for the
empty collection `use_stub_strategy` never answers stub-eligible — every
non-bypassed name is tracked — and the produced config differs from the one
obtained by passing `False` (stubs disabled). -/
theorem from_gather_kwargs_collection_allowlist :
    ∀ (collection : List String) (nostub_fp nostub_pkg : Option (List String)),
      (StubsConfig.from_gather_kwargs (.names collection) nostub_fp
          nostub_pkg).enable_stubs = true
      ∧ (StubsConfig.from_gather_kwargs (.names collection) nostub_fp
          nostub_pkg).global_allowlist = some (pyFrozenset collection)
      ∧ (∀ n : String, n ∈ pyFrozenset collection ↔ n ∈ collection)
      ∧ (∀ (sys_stdlib : List String) (fullname : String),
          (StubsConfig.from_gather_kwargs (.names []) nostub_fp
              nostub_pkg).use_stub_strategy sys_stdlib fullname
            ≠ some true)
      ∧ (∀ (sys_stdlib : List String) (fullname : String),
          sys_stdlib.contains (toplevelPackage fullname) = false →
          NOHOOK_PACKAGES.contains (toplevelPackage fullname) = false →
          (StubsConfig.from_gather_kwargs (.names []) nostub_fp
              nostub_pkg).use_stub_strategy sys_stdlib fullname = some false)
      ∧ (StubsConfig.from_gather_kwargs (.names collection) nostub_fp
            nostub_pkg).enable_stubs
          ≠ (StubsConfig.from_gather_kwargs (.bool false) nostub_fp
              nostub_pkg).enable_stubs := by
  intro collection nfp npkg
  refine ⟨rfl, rfl, fun n => List.mem_dedup, ?_, ?_,
    fun hh => Bool.noConfusion hh⟩
  · intro sys_stdlib fullname
    by_cases hby : (sys_stdlib.contains (toplevelPackage fullname)
        || NOHOOK_PACKAGES.contains (toplevelPackage fullname)) = true
    · rw [use_stub_strategy_bypass _ _ _ hby]
      exact fun hh => Option.noConfusion hh
    · have hor : (sys_stdlib.contains (toplevelPackage fullname)
          || NOHOOK_PACKAGES.contains (toplevelPackage fullname)) = false := by
        simpa using hby
      have hsplit := Bool.or_eq_false_iff.mp hor
      rw [use_stub_strategy_allowlist _ [] _ _ rfl rfl hsplit.1 hsplit.2]
      simp
  · intro sys_stdlib fullname hstd hnh
    rw [use_stub_strategy_allowlist _ [] _ _ rfl rfl hstd hnh]
    rfl

/-- Witness for C10: instantiated at the empty collection, the policy
tracks the non-bypassed name `extlib.mod`. -/
theorem from_gather_kwargs_collection_allowlist_witness :
    (["sys"].contains (toplevelPackage "extlib.mod")) = false
    ∧ NOHOOK_PACKAGES.contains (toplevelPackage "extlib.mod") = false
    ∧ (StubsConfig.from_gather_kwargs (.names []) none
        none).use_stub_strategy ["sys"] "extlib.mod" = some false :=
  ⟨by decide, by decide,
   (from_gather_kwargs_collection_allowlist [] none none).2.2.2.2.1 ["sys"]
     "extlib.mod" (by decide) (by decide)⟩

/-- C3: for every requested name whose stub policy answers stub-eligible
and whose top-level package is not first-party, `find_spec` produces the
same stub spec in every phase (the decision precedes the phase read);
whereas a non-stub-eligible or first-party name gets no override (`None`)
in the `EXPLORATION` phase. -/
theorem find_spec_thirdparty_stub_ignores_phase :
    ∀ (env : FinderLoaderEnv) (fullname : String),
      (env.stubs_config.use_stub_strategy env.sys_stdlib fullname = some true →
        env.firstparty_packages.contains (toplevelPackage fullname) = false →
        ∀ ph : Option _ExtractionPhase,
          find_spec { env with phase := ph } fullname
            = Except.ok (some
                { name := fullname
                  loader_state := ExtractionLoaderState.base fullname false
                    _StubStrategy.STUB
                  submodule_search_locations_isSome := true
                  origin := none }))
      ∧ (¬ (env.stubs_config.use_stub_strategy env.sys_stdlib fullname
              = some true
            ∧ env.firstparty_packages.contains (toplevelPackage fullname)
              = false) →
        env.phase = some _ExtractionPhase.EXPLORATION →
        find_spec env fullname = Except.ok none) := by
  intro env fullname
  constructor
  · intro hstub hfp ph
    have hcond : (!env.firstparty_packages.contains (toplevelPackage fullname)
        && true) = true := by
      rw [hfp]
      decide
    simp only [find_spec, hstub]
    rw [if_pos hcond]
  · intro hnot hexp
    cases hs : env.stubs_config.use_stub_strategy env.sys_stdlib fullname with
    | none => simp [find_spec, hs]
    | some flag =>
      cases flag with
      | false => simp [find_spec, hs, hexp]
      | true =>
        have hfp : env.firstparty_packages.contains (toplevelPackage fullname)
            = true := by
          cases hcf : env.firstparty_packages.contains
              (toplevelPackage fullname) with
          | false => exact absurd ⟨hs, hcf⟩ hnot
          | true => rfl
        have hmem : toplevelPackage fullname ∈ env.firstparty_packages := by
          simpa using hfp
        simp [find_spec, hs, hexp, hmem]

/-- Witness for C3: the third-party name `extlib.mod` is stub-eligible and
not first-party under `demoStubEnv`, and gets the stub spec even in the
`EXPLORATION` phase; the first-party name `pkg.sub` gets no override in the
`EXPLORATION` phase. -/
theorem find_spec_thirdparty_stub_ignores_phase_witness :
    demoStubEnv.stubs_config.use_stub_strategy demoStubEnv.sys_stdlib
        "extlib.mod" = some true
    ∧ demoStubEnv.firstparty_packages.contains (toplevelPackage "extlib.mod")
        = false
    ∧ find_spec { demoStubEnv with phase := some _ExtractionPhase.EXPLORATION }
        "extlib.mod"
        = Except.ok (some
            { name := "extlib.mod"
              loader_state := ExtractionLoaderState.base "extlib.mod" false
                _StubStrategy.STUB
              submodule_search_locations_isSome := true
              origin := none })
    ∧ find_spec demoExplorationEnv "pkg.sub" = Except.ok none :=
  ⟨by decide, by decide,
   (find_spec_thirdparty_stub_ignores_phase demoStubEnv "extlib.mod").1
     (by decide) (by decide) (some _ExtractionPhase.EXPLORATION),
   (find_spec_thirdparty_stub_ignores_phase demoExplorationEnv "pkg.sub").2
     (by decide) rfl⟩

/-- C4 counterexample: when the module under inspection (`pkg.main`) is
requested during the `EXTRACTION` phase, `find_spec` returns a delegated
spec carrying the `INSPECT` strategy — it proceeds with inspection rather
than warning and falling back to the stub strategy. -/
theorem under_inspection_resolution_counterexample :
    find_spec demoInspectEnv "pkg.main" = Except.ok (some demoInspectSpec)
    ∧ demoInspectSpec.loader_state.stub_strategy = _StubStrategy.INSPECT
    ∧ _StubStrategy.INSPECT ≠ _StubStrategy.STUB := by
  refine ⟨rfl, rfl, by decide⟩

/-- C4 amended: during `PREPARATION` or `EXTRACTION`, a non-bypassed
first-party name equal to the module currently under inspection always
resolves to a delegated spec carrying the `INSPECT` strategy — the
inspection check short-circuits the policy checks, and no warning or stub
fallback occurs on any resolution path. -/
theorem under_inspection_resolution_inspects :
    ∀ (env : FinderLoaderEnv) (fullname : String) (raw : RawModule),
      env.module_to_inspect = some fullname →
      env.firstparty_packages.contains (toplevelPackage fullname) = true →
      (env.stubs_config.use_stub_strategy env.sys_stdlib fullname).isSome
        = true →
      (env.phase = some _ExtractionPhase.PREPARATION
        ∨ env.phase = some _ExtractionPhase.EXTRACTION) →
      dictLookup env.module_stash_raw fullname = some raw →
      find_spec env fullname
        = Except.ok (some (_clone_spec_attrs raw.spec
            { name := fullname
              loader_state := ExtractionLoaderState.delegated fullname true
                _StubStrategy.INSPECT raw.obj_id
              submodule_search_locations_isSome := false
              origin := none })) := by
  intro env fullname raw hmti hfp hsome hphase hraw
  have hdeleg : _get_delegated_spec env (toplevelPackage fullname) fullname
      = Except.ok (_clone_spec_attrs raw.spec
          { name := fullname
            loader_state := ExtractionLoaderState.delegated fullname true
              _StubStrategy.INSPECT raw.obj_id
            submodule_search_locations_isSome := false
            origin := none }) := by
    simp only [_get_delegated_spec]
    rw [if_pos hmti, hraw, hfp]
  cases hs : env.stubs_config.use_stub_strategy env.sys_stdlib fullname with
  | none =>
    rw [hs] at hsome
    cases hsome
  | some flag =>
    have hcond : ¬ ((!env.firstparty_packages.contains
        (toplevelPackage fullname) && flag) = true) := by
      rw [hfp]
      cases flag <;> decide
    simp only [find_spec, hs]
    rw [if_neg hcond]
    rcases hphase with hph | hph <;> simp only [hph] <;> rw [hdeleg] <;> rfl

/-- Witness for C4 amended: instantiated at `demoInspectEnv` and
`pkg.main`. -/
theorem under_inspection_resolution_inspects_witness :
    demoInspectEnv.module_to_inspect = some "pkg.main"
    ∧ demoInspectEnv.firstparty_packages.contains (toplevelPackage "pkg.main")
        = true
    ∧ (demoInspectEnv.stubs_config.use_stub_strategy demoInspectEnv.sys_stdlib
        "pkg.main").isSome = true
    ∧ dictLookup demoInspectEnv.module_stash_raw "pkg.main"
        = some { obj_id := 7
                 spec := some { submodule_search_locations_isSome := true
                                origin := some "pkg/main.py" } }
    ∧ find_spec demoInspectEnv "pkg.main"
        = Except.ok (some (_clone_spec_attrs
            (some { submodule_search_locations_isSome := true
                    origin := some "pkg/main.py" })
            { name := "pkg.main"
              loader_state := ExtractionLoaderState.delegated "pkg.main" true
                _StubStrategy.INSPECT 7
              submodule_search_locations_isSome := false
              origin := none })) :=
  ⟨rfl, by decide, by decide, by decide,
   under_inspection_resolution_inspects demoInspectEnv "pkg.main"
     { obj_id := 7
       spec := some { submodule_search_locations_isSome := true
                      origin := some "pkg/main.py" } }
     rfl (by decide) (by decide) (Or.inr rfl) (by decide)⟩

/-- C5 counterexample: the stub placeholder built for `thirdpkg` during the
first inspectee's extraction has identity 0; its name is dirty, so the
cleanup at the start of the next iteration evicts it, and the second
inspectee observes a fresh placeholder with identity 1 — the cached
placeholder is not returned for the remainder of the run. -/
theorem stub_placeholder_not_cached_across_iterations :
    dictLookup (demoLoopIteration demoImportState).sys_modules "thirdpkg"
        = some 0
    ∧ _get_all_dirty_modules ["sys"] [] []
        (demoLoopIteration demoImportState).sys_modules = ["thirdpkg"]
    ∧ dictLookup
        (demoLoopIteration (demoLoopIteration demoImportState)).sys_modules
        "thirdpkg" = some 1
    ∧ (0 : Nat) ≠ 1 := by
  decide

/-- C5 amended: placeholder identity is stable only within a single
inspectee's extraction — importing an already-cached name returns the
identical cached object — but the cleanup performed at the start of each
first-party extraction evicts every dirty, non-unpurgeable module name
(placeholders included), so each inspectee gets fresh placeholders rather
than ones cached for the remainder of the run. -/
theorem stub_placeholder_cached_within_inspection :
    (∀ (name : String) (st : ImportState),
        (import_module_cached name (import_module_cached name st).2).1
          = (import_module_cached name st).1)
    ∧ (∀ (sys_stdlib known_clean unpurgeable : List String)
          (sys_mods : SysModules) (name : String),
        (_get_all_dirty_modules sys_stdlib known_clean unpurgeable
            sys_mods).contains name = true →
        unpurgeable.contains name = false →
        dictLookup (cleanup_sys unpurgeable
            (_get_all_dirty_modules sys_stdlib known_clean unpurgeable
              sys_mods)
            sys_mods) name = none) := by
  constructor
  · intro name st
    cases hl : dictLookup st.sys_modules name with
    | some obj_id => simp [import_module_cached, hl]
    | none => simp [import_module_cached, hl, dictLookup_dictSet_self]
  · intro sys_stdlib known_clean unpurgeable sys_mods name hmem hu
    exact cleanup_sys_removes unpurgeable _ sys_mods name hmem hu

/-- Witness for C5 amended: `thirdpkg` is dirty in a cache holding its
placeholder, it is not unpurgeable, and the cleanup evicts it. -/
theorem stub_placeholder_cached_within_inspection_witness :
    (_get_all_dirty_modules ["sys"] [] [] [("thirdpkg", 0)]).contains
        "thirdpkg" = true
    ∧ ([] : List String).contains "thirdpkg" = false
    ∧ dictLookup (cleanup_sys []
        (_get_all_dirty_modules ["sys"] [] [] [("thirdpkg", 0)])
        [("thirdpkg", 0)]) "thirdpkg" = none :=
  ⟨by decide, by decide,
   stub_placeholder_cached_within_inspection.2 ["sys"] [] [] [("thirdpkg", 0)]
     "thirdpkg" (by decide) (by decide)⟩

end DocnoteExtract
